import Mathlib

/-!
Shallow embedding of the posterboy CLI core: platform registry, platform /
content-type validation, parameter resolution, schedule validation, and the
per-command validation-and-build pipelines for the four post commands
(text, photo, video, document).

External effects of the original TypeScript (the file system, the process
environment, `new Date(...)` parsing, `Intl` timezone lookup, JS `parseInt`)
are passed in as explicit oracle parameters.  JavaScript string truthiness
(`undefined` and `""` are falsy) is modelled by `jsTruthy` / `jsOrStr`.
-/

namespace PosterBoy

/-- The ten platform identifiers (src/src/constants.ts, `ALL_PLATFORMS`). -/
inductive Platform
  | tiktok | instagram | youtube | linkedin | facebook
  | x | threads | pinterest | reddit | bluesky
deriving DecidableEq, Repr

/-- Canonical platform enumeration, in registry order (src/src/constants.ts). -/
def ALL_PLATFORMS : List Platform :=
  [.tiktok, .instagram, .youtube, .linkedin, .facebook,
   .x, .threads, .pinterest, .reddit, .bluesky]

/-- The wire name of each platform (the TS `Platform` string union values). -/
def Platform.name : Platform → String
  | .tiktok => "tiktok"
  | .instagram => "instagram"
  | .youtube => "youtube"
  | .linkedin => "linkedin"
  | .facebook => "facebook"
  | .x => "x"
  | .threads => "threads"
  | .pinterest => "pinterest"
  | .reddit => "reddit"
  | .bluesky => "bluesky"

/-- The four content types. -/
inductive ContentType
  | text | photo | video | document
deriving DecidableEq, Repr

/-- The wire name of each content type. -/
def ContentType.name : ContentType → String
  | .text => "text"
  | .photo => "photo"
  | .video => "video"
  | .document => "document"

/-- The capability table `PLATFORM_CAPABILITIES` of src/unnamed/part_020. -/
def PLATFORM_CAPABILITIES (p : Platform) (t : ContentType) : Bool :=
  match p, t with
  | .tiktok,    .text => false | .tiktok,    .photo => true  | .tiktok,    .video => true  | .tiktok,    .document => false
  | .instagram, .text => false | .instagram, .photo => true  | .instagram, .video => true  | .instagram, .document => false
  | .youtube,   .text => false | .youtube,   .photo => false | .youtube,   .video => true  | .youtube,   .document => false
  | .linkedin,  .text => true  | .linkedin,  .photo => true  | .linkedin,  .video => true  | .linkedin,  .document => true
  | .facebook,  .text => true  | .facebook,  .photo => true  | .facebook,  .video => true  | .facebook,  .document => false
  | .x,         .text => true  | .x,         .photo => true  | .x,         .video => true  | .x,         .document => false
  | .threads,   .text => true  | .threads,   .photo => true  | .threads,   .video => true  | .threads,   .document => false
  | .pinterest, .text => false | .pinterest, .photo => true  | .pinterest, .video => true  | .pinterest, .document => false
  | .reddit,    .text => true  | .reddit,    .photo => true  | .reddit,    .video => true  | .reddit,    .document => false
  | .bluesky,   .text => true  | .bluesky,   .photo => true  | .bluesky,   .video => true  | .bluesky,   .document => false

/-! ### JavaScript string helpers

Comma splitting, trimming and joining are re-implemented structurally over
`List Char` (mirroring JS `split`, `trim`, `join`) so that concrete inputs
reduce inside the kernel. -/

/-- JS `String.prototype.split(sep)` with a one-character separator. -/
def splitChAux (sep : Char) : List Char → List Char → List String
  | [], acc => [String.mk acc.reverse]
  | c :: rest, acc =>
    if c = sep then String.mk acc.reverse :: splitChAux sep rest []
    else splitChAux sep rest (c :: acc)

/-- Split a string on a single-character separator, JS semantics
(`"".split(",") = [""]`). -/
def splitCh (sep : Char) (s : String) : List String :=
  splitChAux sep s.data []

/-- ASCII whitespace recognised by the model of JS `trim`. -/
def isWsChar (c : Char) : Bool :=
  c = ' ' || c = '\t' || c = '\n' || c = '\r'

/-- JS `String.prototype.trim` (modelled over ASCII whitespace). -/
def jsTrim (s : String) : String :=
  String.mk (((s.data.dropWhile isWsChar).reverse.dropWhile isWsChar).reverse)

/-- JS `Array.prototype.join(sep)`. -/
def joinSep (sep : String) : List String → String
  | [] => ""
  | [s] => s
  | s :: rest => s ++ sep ++ joinSep sep rest

/-- JS truthiness of a possibly-undefined string (`undefined` and `""` falsy). -/
def jsTruthy : Option String → Bool
  | some s => !s.isEmpty
  | none => false

/-- JS `a || b` on possibly-undefined strings. -/
def jsOrStr (a b : Option String) : Option String :=
  match a with
  | some s => if s.isEmpty then b else some s
  | none => b

/-- Keep a string only when it is JS-truthy (used for `if (values.x) ...`). -/
def truthyOpt (a : Option String) : Option String :=
  match a with
  | some s => if s.isEmpty then none else some s
  | none => none

/-- ASCII lowering of one character (model of JS `toLowerCase`). -/
def asciiLower (c : Char) : Char :=
  if 'A' ≤ c && c ≤ 'Z' then Char.ofNat (c.toNat + 32) else c

/-- Model of JS `String.prototype.toLowerCase` (ASCII range). -/
def jsToLower (s : String) : String :=
  String.mk (s.data.map asciiLower)

/-- Result of the regex `\.([^./\\]+)$` on the lowercased path: the extension
after the final dot, when it is non-empty and free of `.`, `/` and `\`. -/
def extOf (path : String) : Option String :=
  let segs := splitCh '.' (jsToLower path)
  if segs.length ≥ 2 then
    match segs.getLast? with
    | some last =>
      if last.isEmpty || last.data.any (fun c => c = '/' || c = '\\') then none
      else some last
    | none => none
  else none

/-- `${mb.toFixed(1)}` for a byte count, modelled with rounding to one decimal. -/
def mbToFixed1 (bytes : Nat) : String :=
  let tenths := (bytes * 10 + (1024 * 1024) / 2) / (1024 * 1024)
  toString (tenths / 10) ++ "." ++ toString (tenths % 10)

/-! ### Platform-name validation (src/unnamed/part_020) -/

/-- Lookup of a raw string in `ALL_PLATFORMS` (the TS membership test plus the
cast back to `Platform[]`). -/
def platformOfString (s : String) : Option Platform :=
  ALL_PLATFORMS.find? (fun p => p.name = s)

/-- The `Valid platforms: ...` hint shared by both `validatePlatforms` errors. -/
def validPlatformsHint : String :=
  "Valid platforms: " ++ joinSep ", " (ALL_PLATFORMS.map Platform.name)

/-- `validatePlatforms` of src/unnamed/part_020: empty list and invalid names
are rejected; otherwise the strings are returned as typed platforms. -/
def validatePlatforms (platforms : List String) : Except String (List Platform) :=
  if platforms.isEmpty then
    .error ("At least one platform is required.\n" ++ validPlatformsHint)
  else
    let invalid := platforms.filter (fun s => (platformOfString s).isNone)
    if invalid.isEmpty then
      .ok (platforms.filterMap platformOfString)
    else
      .error ("Invalid platform names: " ++ joinSep ", " invalid ++ ".\n" ++ validPlatformsHint)

/-- `getPlatformsForContentType` of src/unnamed/part_020. -/
def getPlatformsForContentType (t : ContentType) : List Platform :=
  ALL_PLATFORMS.filter (fun p => PLATFORM_CAPABILITIES p t)

/-- `validateContentTypeForPlatforms` of src/unnamed/part_020: collect every
platform that does not support the content type; if any, fail with one message
naming them all and listing the supported platforms. -/
def validateContentTypeForPlatforms (t : ContentType) (platforms : List Platform) :
    Except String Unit :=
  let unsupported := platforms.filter (fun p => !(PLATFORM_CAPABILITIES p t))
  if unsupported.isEmpty then .ok ()
  else
    .error (joinSep ", " (unsupported.map Platform.name) ++ " does not support " ++
      t.name ++ " posts.\nSupported platforms for " ++ t.name ++ ": " ++
      joinSep ", " ((getPlatformsForContentType t).map Platform.name))

/-! ### Platform-specific requirements (src/unnamed/part_020) -/

/-- The slice of the `params` record consulted by `validatePlatformRequirements`. -/
structure ReqParams where
  facebook_page : Option String
  pinterest_board : Option String
  reddit_subreddit : Option String
deriving DecidableEq, Repr

/-- Error raised when Facebook is targeted without a page id. -/
def facebookReqMsg : String :=
  "Facebook requires --facebook-page flag.\n" ++
  "Tip: Set a default in ~/.posterboy/config.json:\n" ++
  "  \"platform_defaults\": \x7b \"facebook\": \x7b \"page_id\": \"your-page-id\" \x7d \x7d"

/-- Error raised when Pinterest is targeted without a board id. -/
def pinterestReqMsg : String :=
  "Pinterest requires --pinterest-board flag.\n" ++
  "Tip: Set a default in ~/.posterboy/config.json:\n" ++
  "  \"platform_defaults\": \x7b \"pinterest\": \x7b \"board_id\": \"your-board-id\" \x7d \x7d"

/-- Error raised when Reddit is targeted without a subreddit. -/
def redditReqMsg : String :=
  "Reddit requires --reddit-subreddit flag.\n" ++
  "Tip: Set a default in ~/.posterboy/config.json:\n" ++
  "  \"platform_defaults\": \x7b \"reddit\": \x7b \"subreddit\": \"yoursubreddit\" \x7d \x7d"

/-- Whether `validatePlatformRequirements` finds the field for `p` missing. -/
def requiredFieldMissing (params : ReqParams) : Platform → Bool
  | .facebook => !(jsTruthy params.facebook_page)
  | .pinterest => !(jsTruthy params.pinterest_board)
  | .reddit => !(jsTruthy params.reddit_subreddit)
  | _ => false

/-- The requirement message for a platform (meaningful for the three platforms
with a declared requirement). -/
def requirementMsg : Platform → String
  | .facebook => facebookReqMsg
  | .pinterest => pinterestReqMsg
  | .reddit => redditReqMsg
  | _ => ""

/-- `validatePlatformRequirements` of src/unnamed/part_020: walk the platform
list in order and fail on the first platform whose required field is not
truthy in `params`. -/
def validatePlatformRequirements : List Platform → ReqParams → Except String Unit
  | [], _ => .ok ()
  | p :: rest, params =>
    if requiredFieldMissing params p then .error (requirementMsg p)
    else validatePlatformRequirements rest params

/-! ### Parameter resolution (src/src/lib/config.ts) -/

/-- `resolveValue` of src/src/lib/config.ts.  `envValue` stands for the looked
up `process.env[envVar]` (the TS reads it ambiently). -/
def resolveValue {T : Type} (flagValue : Option T) (envValue : Option T)
    (configValue : Option T) (defaultValue : T) : T :=
  match flagValue with
  | some v => v
  | none =>
    match envValue with
    | some v => v
    | none =>
      match configValue with
      | some v => v
      | none => defaultValue

/-- `getDefaultProfile` of src/src/lib/config.ts: `resolveValue` at the type
`string | undefined` with the `POSTERBOY_PROFILE` environment variable. -/
def getDefaultProfile (flagValue : Option String) (envProfile : Option String)
    (configProfile : Option String) : Option String :=
  resolveValue (flagValue.map some) (envProfile.map some) (configProfile.map some) none

/-- `getDefaultPlatforms` of src/src/lib/config.ts: a truthy
`POSTERBOY_PLATFORMS` is comma-split (no trimming) and takes priority over the
config's `default_platforms`.  Platform lists are carried as raw strings here,
mirroring the TS `as Platform[]` cast. -/
def getDefaultPlatforms (flagValue : Option (List String)) (envValue : Option String)
    (configValue : Option (List String)) : Option (List String) :=
  let envPlatforms : Option (List String) :=
    match envValue with
    | some s => if s.isEmpty then none else some (splitCh ',' s)
    | none => none
  let merged : Option (List String) :=
    match envPlatforms with
    | some l => some l
    | none => configValue
  resolveValue (flagValue.map some) none (merged.map some) none

/-! ### Schedule and timezone validation (src/src/lib/validation.ts) -/

/-- Milliseconds in one day. -/
def msPerDay : Int := 86400000

/-- `validateISODate` of src/src/lib/validation.ts.  `parsed` is the result of
`new Date(date).getTime()` (`none` for NaN); `now` is `Date.now()` in
milliseconds.  `maxDate.setDate(getDate() + 365)` is modelled as adding 365
days in milliseconds (exact in UTC). -/
def validateISODate (date : String) (parsed : Option Int) (now : Int) :
    Except String Unit :=
  match parsed with
  | none => .error ("Invalid ISO-8601 date: " ++ date)
  | some t =>
    if t ≤ now then .error ("Schedule date must be in the future: " ++ date)
    else if t > now + 365 * msPerDay then
      .error ("Schedule date must be within 365 days from now: " ++ date)
    else .ok ()

/-- `validateTimezone` of src/src/lib/validation.ts; `tzValid` is the oracle
for the `Intl.DateTimeFormat` timezone lookup. -/
def validateTimezone (tzValid : String → Bool) (tz : String) : Except String Unit :=
  if tzValid tz then .ok ()
  else
    .error ("Invalid timezone: " ++ tz ++ ".\n" ++
      "Must be a valid IANA timezone name (e.g., \"America/New_York\").")

/-- `validateMutuallyExclusive` of src/src/lib/validation.ts, specialised to
the two-option calls made by the post commands (all of which pass a custom
message): zero or two provided options fail with that message. -/
def checkOneSource (a b : Bool) (msg : String) : Except String Unit :=
  if !a && !b then .error msg
  else if a && b then .error msg
  else .ok ()

/-! ### Configuration and shared command steps -/

/-- The slice of the persisted config consulted by the post commands. -/
structure Config where
  default_profile : Option String
  default_platforms : Option (List Platform)
  facebook_page_id : Option String
  pinterest_board_id : Option String
  reddit_subreddit : Option String
  linkedin_page_id : Option String
  linkedin_visibility : Option String
deriving DecidableEq, Repr

/-- The `Profile required.` error shared verbatim by all four post commands. -/
def profileRequiredMsg : String :=
  "Profile required. Provide one of:\n" ++
  "  --profile <name>                           (command flag)\n" ++
  "  --profile <name> (global flag)             (before \x27post\x27)\n" ++
  "  POSTERBOY_PROFILE=<name>                   (environment variable)\n" ++
  "  \"default_profile\": \"<name>\"                (in ~/.posterboy/config.json)"

/-- Profile resolution shared by the post commands:
`values.profile || globalFlags.profile || getDefaultProfile(undefined, config)`
followed by the `if (!profile)` check. -/
def resolveProfileStep (cmdFlag gFlag envProfile cfgProfile : Option String) :
    Except String String :=
  match jsOrStr cmdFlag (jsOrStr gFlag (getDefaultProfile none envProfile cfgProfile)) with
  | some p => if p.isEmpty then .error profileRequiredMsg else .ok p
  | none => .error profileRequiredMsg

/-- The `Platforms required.` error; `example` is the per-command
comma-separated example shown in the `--platforms` line. -/
def platformsRequiredMsg (ex : String) : String :=
  "Platforms required. Provide one of:\n" ++
  "  --platforms <list>                         (comma-separated: " ++ ex ++ ")\n" ++
  "  POSTERBOY_PLATFORMS=<list>                 (environment variable)\n" ++
  "  \"default_platforms\": [...]                 (in ~/.posterboy/config.json)"

/-- Comma-separated list flags (`--platforms`, `--files`, `--urls`): split on
comma, trim each token, drop empty tokens. -/
def tokenizeCsv (s : String) : List String :=
  ((splitCh ',' s).map jsTrim).filter (fun t => !t.isEmpty)

/-- Platform resolution as written in the text, photo and video post commands:
a truthy `--platforms` flag is tokenized and validated, otherwise a non-empty
`config.default_platforms` is used, otherwise the command fails.  The ambient
`POSTERBOY_PLATFORMS` environment variable is passed in as `envPlatforms` but
the commands never read it (only their error text mentions it). -/
def resolvePlatformsStep (flagPlatforms : Option String) (envPlatforms : Option String)
    (configPlatforms : Option (List Platform)) (ex : String) :
    Except String (List Platform) :=
  match truthyOpt flagPlatforms with
  | some s => validatePlatforms (tokenizeCsv s)
  | none =>
    match configPlatforms with
    | some l => if l.isEmpty then .error (platformsRequiredMsg ex) else .ok l
    | none => .error (platformsRequiredMsg ex)

/-- The `--schedule` / `--queue` mutual-exclusion error, shared verbatim by
all four post commands. -/
def schedQueueMsg : String :=
  "--schedule and --queue are mutually exclusive.\n" ++
  "Use --schedule for a specific date/time, or --queue to use the next available slot."

/-- The `if (values.schedule && values.queue)` check of the post commands. -/
def checkScheduleQueue (schedule : Option String) (queue : Bool) :
    Except String Unit :=
  if jsTruthy schedule && queue then .error schedQueueMsg else .ok ()

/-- The optional `validateISODate` call: run only on a truthy `--schedule`. -/
def checkSchedule (parseDate : String → Option Int) (now : Int)
    (schedule : Option String) : Except String Unit :=
  match truthyOpt schedule with
  | some s => validateISODate s (parseDate s) now
  | none => .ok ()

/-- The optional `validateTimezone` call: run only on a truthy `--timezone`. -/
def checkTimezone (tzValid : String → Bool) (timezone : Option String) :
    Except String Unit :=
  match truthyOpt timezone with
  | some tz => validateTimezone tzValid tz
  | none => .ok ()

/-- Assembly of the `params` record the post commands hand to
`validatePlatformRequirements`: each field is
`values["<platform>-..."] || config?.platform_defaults?...`. -/
def mkReqParams (fbFlag pinFlag redFlag : Option String)
    (cfgFb cfgPin cfgRed : Option String) : ReqParams :=
  ⟨jsOrStr fbFlag cfgFb, jsOrStr pinFlag cfgPin, jsOrStr redFlag cfgRed⟩

/-- The file-system oracle: existence and byte size per path. -/
structure FileSystem where
  fexists : String → Bool
  fsize : String → Nat

/-! ### The video post command (src/unnamed/part_011) -/

/-- Flags of `post video` consulted by its validation pipeline. -/
structure VideoFlags where
  file : Option String
  url : Option String
  title : Option String
  platforms : Option String
  profile : Option String
  schedule : Option String
  timezone : Option String
  queue : Bool
  async : Option Bool
  facebook_page : Option String
  pinterest_board : Option String
  reddit_subreddit : Option String
deriving Repr

/-- The `--file`/`--url` error of `post video`. -/
def videoSourceMsg : String :=
  "Video source required. Provide exactly one of:\n" ++
  "  --file <path>    Local video file\n" ++
  "  --url <url>      Public video URL"

/-- `validateVideoFile` of src/unnamed/part_011: existence, then extension;
returns the file size. -/
def validateVideoFile (fs : FileSystem) (filePath : String) : Except String Nat :=
  if !(fs.fexists filePath) then .error ("File not found: " ++ filePath)
  else
    match extOf filePath with
    | some e =>
      if e ∈ ["mp4", "mov", "webm", "avi"] then .ok (fs.fsize filePath)
      else .error ("Unsupported video format: " ++ filePath ++ ". Supported: MP4, MOV, WebM, AVI")
    | none => .error ("Unsupported video format: " ++ filePath ++ ". Supported: MP4, MOV, WebM, AVI")

/-- The 50MB auto-async threshold of `post video`. -/
def ASYNC_THRESHOLD : Nat := 50 * 1024 * 1024

/-- The auto-async decision of src/unnamed/part_011 lines 181-185: upgrade to
`async = true` only when the file is over the threshold AND the caller left
`--async` completely unset. -/
def resolveVideoAsync (fileSize : Nat) (asyncFlag : Option Bool) : Option Bool :=
  if fileSize > ASYNC_THRESHOLD ∧ asyncFlag = none then some true else asyncFlag

/-- The universal fields of the built video request (the platform-specific
override bag is dropped: no claim concerns it). -/
structure BuiltVideo where
  profile : String
  platforms : List Platform
  title : String
  schedule : Option String
  queue : Bool
  async : Option Bool
deriving DecidableEq, Repr

/-- The validation-and-build pipeline of `postVideo` (src/unnamed/part_011), up
to the point where the request object is fully built (`.ok`) and would be
handed to the dry-run printer or the HTTP client. -/
def videoPipeline (fs : FileSystem) (parseDate : String → Option Int) (now : Int)
    (tzValid : String → Bool) (envProfile envPlatforms : Option String)
    (cfg : Option Config) (gProfile : Option String) (v : VideoFlags) :
    Except String BuiltVideo :=
  checkOneSource (jsTruthy v.file) (jsTruthy v.url) videoSourceMsg >>= fun _ =>
  (match truthyOpt v.title with
   | none => Except.error "Title required. Use --title <text>"
   | some t => Except.ok t) >>= fun title =>
  resolveProfileStep v.profile gProfile envProfile
    (cfg.bind (fun c => c.default_profile)) >>= fun profile =>
  resolvePlatformsStep v.platforms envPlatforms
    (cfg.bind (fun c => c.default_platforms)) "tiktok,youtube,instagram" >>= fun platforms =>
  validateContentTypeForPlatforms .video platforms >>= fun _ =>
  (match truthyOpt v.file with
   | some path => validateVideoFile fs path
   | none => Except.ok 0) >>= fun fileSize =>
  validatePlatformRequirements platforms
    (mkReqParams v.facebook_page v.pinterest_board v.reddit_subreddit
      (cfg.bind (fun c => c.facebook_page_id))
      (cfg.bind (fun c => c.pinterest_board_id))
      (cfg.bind (fun c => c.reddit_subreddit))) >>= fun _ =>
  checkScheduleQueue v.schedule v.queue >>= fun _ =>
  checkSchedule parseDate now v.schedule >>= fun _ =>
  checkTimezone tzValid v.timezone >>= fun _ =>
  Except.ok ⟨profile, platforms, title, truthyOpt v.schedule, v.queue,
    resolveVideoAsync fileSize v.async⟩

/-! ### The text post command (src/src/commands/post, postText) -/

/-- Flags of `post text` consulted by its validation pipeline. -/
structure TextFlags where
  body : Option String
  file : Option String
  stdin : Bool
  platforms : Option String
  profile : Option String
  schedule : Option String
  timezone : Option String
  queue : Bool
  async : Bool
  facebook_page : Option String
  reddit_subreddit : Option String
  x_poll_options : Option (List String)
  x_poll_duration : Option String
deriving Repr

/-- The zero-input-modes error of `post text`. -/
def textRequiredMsg : String :=
  "Text content required. Provide exactly one of:\n" ++
  "  --body <text>    Text content inline\n" ++
  "  --file <path>    Read text from file\n" ++
  "  --stdin          Read text from stdin"

/-- The several-input-modes error of `post text`. -/
def textOneInputMsg : String :=
  "Only one text input method allowed.\n" ++
  "Choose one of: --body, --file, or --stdin"

/-- The text-content resolution of `postText`: exactly one of `--body`,
`--file`, `--stdin`; `fileRead`/`stdinRead` are the I/O oracles (their error
value is the underlying JS error message). -/
def resolveTextContent (tf : TextFlags) (fileRead : String → Except String String)
    (stdinRead : Except String String) : Except String String :=
  let hasBody := jsTruthy tf.body
  let hasFile := jsTruthy tf.file
  let n := (if hasBody then 1 else 0) + (if hasFile then 1 else 0) +
    (if tf.stdin then 1 else 0)
  if n = 0 then .error textRequiredMsg
  else if n > 1 then .error textOneInputMsg
  else if hasBody then .ok (tf.body.getD "")
  else if hasFile then
    match fileRead (tf.file.getD "") with
    | .ok t => .ok t
    | .error e => .error ("Failed to read file: " ++ tf.file.getD "" ++ "\nError: " ++ e)
  else
    match stdinRead with
    | .ok t => .ok t
    | .error e => .error ("Failed to read from stdin\nError: " ++ e)

/-- The `if (!text || text.trim().length === 0)` check of `postText`. -/
def checkTextNotEmpty (text : String) : Except String Unit :=
  if (jsTrim text).isEmpty then .error "Text content cannot be empty" else .ok ()

/-- X poll option validation inside the `postText` build section. -/
def resolvePollOptions (raw : Option (List String)) :
    Except String (Option (List String)) :=
  match raw with
  | none => .ok none
  | some lst =>
    let options := (((lst.map (fun o => splitCh ',' o)).flatten).map jsTrim).filter
      (fun o => !o.isEmpty)
    if options.length < 2 ∨ options.length > 4 then
      .error ("X polls require 2-4 options. You provided " ++
        toString options.length ++ ".")
    else .ok (some options)

/-- The X poll duration error of `postText`. -/
def pollDurationMsg : String :=
  "Invalid poll duration. Must be a number between 5 and 10080 minutes (5 minutes to 7 days)."

/-- X poll duration validation inside the `postText` build section;
`parseIntJs` is the oracle for JS `parseInt(s, 10)` (`none` for NaN). -/
def resolvePollDuration (raw : Option String) (parseIntJs : String → Option Int) :
    Except String (Option Int) :=
  match truthyOpt raw with
  | none => .ok none
  | some s =>
    match parseIntJs s with
    | none => .error pollDurationMsg
    | some d => if d < 5 ∨ d > 10080 then .error pollDurationMsg else .ok (some d)

/-- The universal fields of the built text request. -/
structure BuiltText where
  profile : String
  platforms : List Platform
  text : String
  schedule : Option String
  queue : Bool
  async : Bool
  x_poll_options : Option (List String)
  x_poll_duration : Option Int
deriving DecidableEq, Repr

/-- The validation-and-build pipeline of `postText`. -/
def textPipeline (fileRead : String → Except String String)
    (stdinRead : Except String String) (parseDate : String → Option Int) (now : Int)
    (tzValid : String → Bool) (parseIntJs : String → Option Int)
    (envProfile envPlatforms : Option String) (cfg : Option Config)
    (gProfile : Option String) (tf : TextFlags) : Except String BuiltText :=
  resolveTextContent tf fileRead stdinRead >>= fun text =>
  checkTextNotEmpty text >>= fun _ =>
  resolveProfileStep tf.profile gProfile envProfile
    (cfg.bind (fun c => c.default_profile)) >>= fun profile =>
  resolvePlatformsStep tf.platforms envPlatforms
    (cfg.bind (fun c => c.default_platforms)) "x,linkedin,threads" >>= fun platforms =>
  validateContentTypeForPlatforms .text platforms >>= fun _ =>
  validatePlatformRequirements platforms
    (mkReqParams tf.facebook_page none tf.reddit_subreddit
      (cfg.bind (fun c => c.facebook_page_id)) none
      (cfg.bind (fun c => c.reddit_subreddit))) >>= fun _ =>
  checkScheduleQueue tf.schedule tf.queue >>= fun _ =>
  checkSchedule parseDate now tf.schedule >>= fun _ =>
  checkTimezone tzValid tf.timezone >>= fun _ =>
  resolvePollOptions tf.x_poll_options >>= fun pollOpts =>
  resolvePollDuration tf.x_poll_duration parseIntJs >>= fun pollDur =>
  Except.ok ⟨profile, platforms, text, truthyOpt tf.schedule, tf.queue, tf.async,
    pollOpts, pollDur⟩

/-! ### The photo post command (src/unnamed/part_010) -/

/-- Flags of `post photo` consulted by its validation pipeline. -/
structure PhotoFlags where
  files : Option String
  urls : Option String
  title : Option String
  platforms : Option String
  profile : Option String
  schedule : Option String
  timezone : Option String
  queue : Bool
  async : Bool
  facebook_page : Option String
  pinterest_board : Option String
  reddit_subreddit : Option String
deriving Repr

/-- `validatePhotoFiles` of src/unnamed/part_010: per file, existence, the 8MB
ceiling, then the extension. -/
def validatePhotoFiles (fs : FileSystem) : List String → Except String Unit
  | [] => .ok ()
  | path :: rest =>
    if !(fs.fexists path) then .error ("File not found: " ++ path)
    else if fs.fsize path > 8 * 1024 * 1024 then
      .error ("File exceeds 8MB limit: " ++ path ++ " (" ++
        mbToFixed1 (fs.fsize path) ++ "MB)")
    else
      match extOf path with
      | some e =>
        if e ∈ ["jpg", "jpeg", "png", "gif"] then validatePhotoFiles fs rest
        else .error ("Unsupported format: " ++ path ++ ". Supported: JPEG, PNG, GIF")
      | none => .error ("Unsupported format: " ++ path ++ ". Supported: JPEG, PNG, GIF")

/-- The universal fields of the built photo request. -/
structure BuiltPhoto where
  profile : String
  platforms : List Platform
  files : Option (List String)
  urls : Option (List String)
  title : String
  schedule : Option String
  queue : Bool
  async : Bool
deriving DecidableEq, Repr

/-- The validation-and-build pipeline of `postPhoto` (src/unnamed/part_010). -/
def photoPipeline (fs : FileSystem) (parseDate : String → Option Int) (now : Int)
    (tzValid : String → Bool) (envProfile envPlatforms : Option String)
    (cfg : Option Config) (gProfile : Option String) (pf : PhotoFlags) :
    Except String BuiltPhoto :=
  checkOneSource (jsTruthy pf.files) (jsTruthy pf.urls)
    "Must provide either --files or --urls (not both)" >>= fun _ =>
  (match truthyOpt pf.title with
   | none => Except.error "--title is required for photo posts"
   | some t => Except.ok t) >>= fun title =>
  (match truthyOpt pf.files with
   | some s => validatePhotoFiles fs (tokenizeCsv s) >>= fun _ =>
       Except.ok (some (tokenizeCsv s))
   | none => Except.ok none) >>= fun files =>
  resolveProfileStep pf.profile gProfile envProfile
    (cfg.bind (fun c => c.default_profile)) >>= fun profile =>
  resolvePlatformsStep pf.platforms envPlatforms
    (cfg.bind (fun c => c.default_platforms)) "instagram,tiktok,facebook" >>= fun platforms =>
  validateContentTypeForPlatforms .photo platforms >>= fun _ =>
  validatePlatformRequirements platforms
    (mkReqParams pf.facebook_page pf.pinterest_board pf.reddit_subreddit
      (cfg.bind (fun c => c.facebook_page_id))
      (cfg.bind (fun c => c.pinterest_board_id))
      (cfg.bind (fun c => c.reddit_subreddit))) >>= fun _ =>
  checkScheduleQueue pf.schedule pf.queue >>= fun _ =>
  checkSchedule parseDate now pf.schedule >>= fun _ =>
  checkTimezone tzValid pf.timezone >>= fun _ =>
  Except.ok ⟨profile, platforms, files,
    (match truthyOpt pf.urls with
     | some s => some (tokenizeCsv s)
     | none => none),
    title, truthyOpt pf.schedule, pf.queue, pf.async⟩

/-! ### The document post command (src/src/commands/post/document.ts) -/

/-- Flags of `post document` consulted by its validation pipeline. -/
structure DocumentFlags where
  file : Option String
  url : Option String
  title : Option String
  platforms : Option String
  profile : Option String
  linkedin_page : Option String
  linkedin_visibility : Option String
  schedule : Option String
  timezone : Option String
  queue : Bool
  async : Bool
deriving Repr

/-- `validateDocumentFile` of src/src/commands/post/document.ts: existence,
the 100MB ceiling, then the extension. -/
def validateDocumentFile (fs : FileSystem) (path : String) : Except String Unit :=
  if !(fs.fexists path) then .error ("File not found: " ++ path)
  else if fs.fsize path > 100 * 1024 * 1024 then
    .error ("File exceeds 100MB limit: " ++ path ++ " (" ++
      mbToFixed1 (fs.fsize path) ++ "MB)")
  else
    match extOf path with
    | some e =>
      if e ∈ ["pdf", "ppt", "pptx", "doc", "docx"] then .ok ()
      else .error ("Unsupported format: " ++ path ++ ". Supported: PDF, PPT, PPTX, DOC, DOCX")
    | none => .error ("Unsupported format: " ++ path ++ ". Supported: PDF, PPT, PPTX, DOC, DOCX")

/-- The LinkedIn-only platform check of `postDocument` (document.ts lines
100-112): run only on a truthy `--platforms`; every token other than
`linkedin` is collected and reported in one message. -/
def checkDocPlatforms (platformsFlag : Option String) : Except String Unit :=
  match truthyOpt platformsFlag with
  | none => .ok ()
  | some s =>
    let nonLinkedin := (tokenizeCsv s).filter (fun p => p ≠ "linkedin")
    if nonLinkedin.isEmpty then .ok ()
    else
      .error ("Document posts are only supported on LinkedIn. Unsupported: " ++
        joinSep ", " nonLinkedin)

/-- The universal fields of the built document request. -/
structure BuiltDocument where
  profile : String
  file : Option String
  url : Option String
  title : String
  linkedin_page : Option String
  linkedin_visibility : Option String
  schedule : Option String
  queue : Bool
  async : Bool
deriving DecidableEq, Repr

/-- The validation-and-build pipeline of `postDocument`. -/
def documentPipeline (fs : FileSystem) (parseDate : String → Option Int) (now : Int)
    (tzValid : String → Bool) (envProfile : Option String) (cfg : Option Config)
    (gProfile : Option String) (df : DocumentFlags) : Except String BuiltDocument :=
  checkOneSource (jsTruthy df.file) (jsTruthy df.url)
    "Must provide either --file or --url (not both)" >>= fun _ =>
  (match truthyOpt df.title with
   | none => Except.error "--title is required for document posts"
   | some t => Except.ok t) >>= fun title =>
  (match truthyOpt df.file with
   | some path => validateDocumentFile fs path
   | none => Except.ok ()) >>= fun _ =>
  resolveProfileStep df.profile gProfile envProfile
    (cfg.bind (fun c => c.default_profile)) >>= fun profile =>
  checkDocPlatforms df.platforms >>= fun _ =>
  checkScheduleQueue df.schedule df.queue >>= fun _ =>
  checkSchedule parseDate now df.schedule >>= fun _ =>
  checkTimezone tzValid df.timezone >>= fun _ =>
  Except.ok ⟨profile, df.file, df.url, title,
    truthyOpt (jsOrStr df.linkedin_page (cfg.bind (fun c => c.linkedin_page_id))),
    truthyOpt (jsOrStr df.linkedin_visibility (cfg.bind (fun c => c.linkedin_visibility))),
    truthyOpt df.schedule, df.queue, df.async⟩

/-! ### Helper lemmas -/

/-- Whether an `Except` value is an error. -/
def isErr {ε α : Type} : Except ε α → Bool
  | .error _ => true
  | .ok _ => false

theorem isErr_bind_of {ε α β : Type} (a : Except ε α) (f : α → Except ε β)
    (h : ∀ x, isErr (f x) = true) : isErr (a >>= f) = true := by
  cases a with
  | error e => rfl
  | ok x => exact h x

theorem isErr_error_bind {ε α β : Type} (e : ε) (f : α → Except ε β) :
    isErr ((Except.error e : Except ε α) >>= f) = true := rfl

theorem bind_ok_elim {ε α β : Type} {a : Except ε α} {f : α → Except ε β} {b : β}
    (h : (a >>= f) = .ok b) : ∃ x, a = .ok x ∧ f x = .ok b := by
  cases a with
  | error e => exact absurd h (by simp [Bind.bind, Except.bind])
  | ok x => exact ⟨x, rfl, h⟩

theorem checkScheduleQueue_err {schedule : Option String} {queue : Bool}
    (hs : jsTruthy schedule = true) (hq : queue = true) :
    checkScheduleQueue schedule queue = .error schedQueueMsg := by
  simp [checkScheduleQueue, hs, hq]

/-! ### Claim theorems -/

/-- C2: `resolveValue` honors the four precedence layers flag > env > config >
default exactly: a defined flag always wins; with the flag absent a set
environment variable wins; with both absent a defined config value wins; with
all three absent the default is returned. -/
theorem resolveValue_precedence {T : Type} (a b c d : T) (e cf : Option T) :
    resolveValue (some a) e cf d = a ∧
    resolveValue none (some b) cf d = b ∧
    resolveValue none none (some c) d = c ∧
    resolveValue (T := T) none none none d = d :=
  ⟨rfl, rfl, rfl, rfl⟩

/-- C9: validating content type `text` against `["instagram"]` fails, the
message lists `instagram` as unsupported, and the valid alternatives named in
it are exactly x, linkedin, facebook, threads, reddit, bluesky (as a set),
listed in registry (canonical enumeration) order. -/
theorem instagram_text_error_message :
    validateContentTypeForPlatforms .text [.instagram] =
      .error "instagram does not support text posts.\nSupported platforms for text: linkedin, facebook, x, threads, reddit, bluesky" ∧
    getPlatformsForContentType .text =
      [.linkedin, .facebook, .x, .threads, .reddit, .bluesky] ∧
    (getPlatformsForContentType .text).Perm
      [.x, .linkedin, .facebook, .threads, .reddit, .bluesky] :=
  ⟨rfl, by decide, by decide⟩

/-- C6: `validateISODate` rejects any instant at or before the current time
and any instant more than 365 days out, each with a message naming the bound
crossed; an instant one second in the future and an instant 364 days out are
both accepted. -/
theorem validateISODate_bounds (date : String) (now t : Int) :
    (t ≤ now → validateISODate date (some t) now =
      .error ("Schedule date must be in the future: " ++ date)) ∧
    (t > now + 365 * msPerDay → validateISODate date (some t) now =
      .error ("Schedule date must be within 365 days from now: " ++ date)) ∧
    validateISODate date (some (now + 1000)) now = .ok () ∧
    validateISODate date (some (now + 364 * msPerDay)) now = .ok () := by
  have hms : msPerDay = 86400000 := rfl
  refine ⟨fun h => by simp [validateISODate, h], fun h => ?_, ?_, ?_⟩
  · rw [hms] at h
    have h1 : ¬ t ≤ now := by omega
    have h2 : t > now + 365 * msPerDay := by rw [hms]; omega
    simp only [validateISODate, if_neg h1, if_pos h2]
  · simp only [validateISODate]
    rw [if_neg (by omega), if_neg (by rw [hms]; omega)]
  · simp only [validateISODate]
    rw [if_neg (by rw [hms]; omega), if_neg (by rw [hms]; omega)]

/-- Witness for C6 at `now = 0`: the current instant itself is rejected, an
instant one millisecond past the 365-day bound is rejected, and one second /
364 days out are accepted. -/
theorem validateISODate_bounds_witness :
    validateISODate "2025-06-01T00:00:00Z" (some 0) 0 =
      .error "Schedule date must be in the future: 2025-06-01T00:00:00Z" ∧
    validateISODate "2025-06-01T00:00:00Z" (some 31536000001) 0 =
      .error "Schedule date must be within 365 days from now: 2025-06-01T00:00:00Z" ∧
    validateISODate "2025-06-01T00:00:00Z" (some 1000) 0 = .ok () ∧
    validateISODate "2025-06-01T00:00:00Z" (some 31449600000) 0 = .ok () := by
  obtain ⟨h1, -, h3, h4⟩ := validateISODate_bounds "2025-06-01T00:00:00Z" 0 0
  obtain ⟨-, h2, -, -⟩ := validateISODate_bounds "2025-06-01T00:00:00Z" 0 31536000001
  refine ⟨h1 le_rfl, h2 (by norm_num [msPerDay]), ?_, ?_⟩
  · simpa using h3
  · have : (0 : Int) + 364 * msPerDay = 31449600000 := by norm_num [msPerDay]
    simpa [this] using h4

/-- C1: `validateContentTypeForPlatforms` succeeds exactly when every listed
platform supports the content type; otherwise it fails with one message built
from the complete list of offenders (in input order, not just the first) and
the complete registry-ordered list of platforms supporting the content type;
every unsupported platform of the call is collected. -/
theorem validateContentType_collects_all (t : ContentType) (ps : List Platform) :
    (validateContentTypeForPlatforms t ps = .ok () ↔
      ∀ p ∈ ps, PLATFORM_CAPABILITIES p t = true) ∧
    (ps.filter (fun p => !(PLATFORM_CAPABILITIES p t)) ≠ [] →
      validateContentTypeForPlatforms t ps =
        .error (joinSep ", " ((ps.filter (fun p => !(PLATFORM_CAPABILITIES p t))).map Platform.name) ++
          " does not support " ++ t.name ++ " posts.\nSupported platforms for " ++
          t.name ++ ": " ++
          joinSep ", " ((ALL_PLATFORMS.filter (fun p => PLATFORM_CAPABILITIES p t)).map Platform.name))) ∧
    (∀ p ∈ ps, PLATFORM_CAPABILITIES p t = false →
      p ∈ ps.filter (fun p => !(PLATFORM_CAPABILITIES p t))) := by
  by_cases hu : ps.filter (fun p => !(PLATFORM_CAPABILITIES p t)) = []
  · refine ⟨?_, fun h => absurd hu h, fun p hp hcap => ?_⟩
    · simp only [validateContentTypeForPlatforms, hu, List.isEmpty_nil, if_true]
      simp only [true_iff]
      intro p hp
      have := List.filter_eq_nil_iff.1 hu p hp
      simpa using this
    · exact absurd (by simpa using List.filter_eq_nil_iff.1 hu p hp) (by simp [hcap])
  · have hne : (ps.filter (fun p => !(PLATFORM_CAPABILITIES p t))).isEmpty = false := by
      simpa [List.isEmpty_iff] using hu
    refine ⟨?_, fun _ => ?_, fun p hp hcap => ?_⟩
    · simp only [validateContentTypeForPlatforms, hne, Bool.false_eq_true, if_false]
      constructor
      · intro h; exact absurd h (by simp)
      · intro hall
        exact absurd (List.filter_eq_nil_iff.2 fun a ha => by simp [hall a ha]) hu
    · simp only [validateContentTypeForPlatforms, hne, Bool.false_eq_true, if_false,
        getPlatformsForContentType]
    · exact List.mem_filter.2 ⟨hp, by simp [hcap]⟩

/-- Witness for C1 at content type `photo` and platform list `[youtube]`:
the offender list is non-empty and the call fails with the message naming
`youtube` and listing every photo-capable platform. -/
theorem validateContentType_collects_all_witness :
    ([Platform.youtube].filter (fun p => !(PLATFORM_CAPABILITIES p .photo)) ≠ []) ∧
    validateContentTypeForPlatforms .photo [.youtube] =
      .error "youtube does not support photo posts.\nSupported platforms for photo: tiktok, instagram, linkedin, facebook, x, threads, pinterest, reddit, bluesky" := by
  refine ⟨by decide, ?_⟩
  have h := (validateContentType_collects_all .photo [.youtube]).2.1 (by decide)
  rw [h]
  rfl

/-- C10: when `--platforms` is supplied but its tokens (comma-split, trimmed,
empties dropped) are empty, platform resolution in the post commands does not
fall back to the config default: for every config value it fails with the
`At least one platform is required` error listing the valid platforms. -/
theorem emptyPlatformsFlag_fails (s : String) (env : Option String)
    (cfgP : Option (List Platform)) (ex : String)
    (hs : s.isEmpty = false) (htok : tokenizeCsv s = []) :
    resolvePlatformsStep (some s) env cfgP ex =
      .error ("At least one platform is required.\n" ++
        "Valid platforms: " ++
        joinSep ", " (ALL_PLATFORMS.map Platform.name)) := by
  simp only [resolvePlatformsStep, truthyOpt, hs, Bool.false_eq_true, if_false, htok,
    validatePlatforms, List.isEmpty_nil, if_true, validPlatformsHint]
  rw [String.append_assoc]

/-- Witness for C10: `--platforms " , ,"` with a configured default of
`[linkedin]` still fails asking for at least one platform. -/
theorem emptyPlatformsFlag_fails_witness :
    (" , ," : String).isEmpty = false ∧ tokenizeCsv " , ," = [] ∧
    resolvePlatformsStep (some " , ,") (some "x") (some [.linkedin]) "x,linkedin,threads" =
      .error "At least one platform is required.\nValid platforms: tiktok, instagram, youtube, linkedin, facebook, x, threads, pinterest, reddit, bluesky" := by
  refine ⟨rfl, by decide, ?_⟩
  have h := emptyPlatformsFlag_fails " , ," (some "x") (some [.linkedin])
    "x,linkedin,threads" rfl (by decide)
  rw [h]
  rfl

/-- C5 (code bug): the platform resolution actually executed by the post
commands is constant in the `POSTERBOY_PLATFORMS` environment variable — with
no `--platforms` flag it always takes the config's `default_platforms` — even
though the helper `getDefaultPlatforms` (which no post command calls) gives
the environment variable priority over the config. -/
theorem postPlatformResolution_ignores_env :
    (∀ (e₁ e₂ flag : Option String) (cfgP : Option (List Platform)) (ex : String),
      resolvePlatformsStep flag e₁ cfgP ex = resolvePlatformsStep flag e₂ cfgP ex) ∧
    resolvePlatformsStep none (some "x") (some [.linkedin]) "tiktok,youtube,instagram" =
      .ok [.linkedin] ∧
    resolvePlatformsStep none (some "x") (some [.linkedin]) "tiktok,youtube,instagram" ≠
      .ok [.x] ∧
    getDefaultPlatforms none (some "x") (some ["linkedin"]) = some ["x"] := by
  refine ⟨fun _ _ _ _ _ => rfl, rfl, ?_, rfl⟩
  intro h
  rw [show resolvePlatformsStep none (some "x") (some [.linkedin])
    "tiktok,youtube,instagram" = .ok [.linkedin] from rfl] at h
  exact absurd (Except.ok.inj h) (by decide)

theorem validateReq_error_of_missing (params : ReqParams) :
    ∀ (ps : List Platform) (p : Platform), p ∈ ps →
      requiredFieldMissing params p = true →
      ∃ q, q ∈ ps ∧ requiredFieldMissing params q = true ∧
        validatePlatformRequirements ps params = .error (requirementMsg q) := by
  intro ps
  induction ps with
  | nil => intro p hp; cases hp
  | cons head rest ih =>
    intro p hp hpm
    by_cases hm : requiredFieldMissing params head = true
    · exact ⟨head, List.mem_cons_self _ _, hm, by simp [validatePlatformRequirements, hm]⟩
    · have hp' : p ∈ rest := by
        cases List.mem_cons.1 hp with
        | inl he => exact absurd (he ▸ hpm) hm
        | inr h => exact h
      obtain ⟨q, hq, hqm, hval⟩ := ih p hp' hpm
      refine ⟨q, List.mem_cons_of_mem _ hq, hqm, ?_⟩
      simpa [validatePlatformRequirements, hm] using hval

theorem validateReq_ok_of_none_missing (params : ReqParams) :
    ∀ ps : List Platform, (∀ p ∈ ps, requiredFieldMissing params p = false) →
      validatePlatformRequirements ps params = .ok () := by
  intro ps
  induction ps with
  | nil => intro _; rfl
  | cons head rest ih =>
    intro h
    have hm := h head (List.mem_cons_self _ _)
    rw [show validatePlatformRequirements (head :: rest) params =
      validatePlatformRequirements rest params by simp [validatePlatformRequirements, hm]]
    exact ih (fun p hp => h p (List.mem_cons_of_mem _ hp))

/-- C4: for each platform with a declared requirement (facebook needs
`facebook_page`, pinterest needs `pinterest_board`, reddit needs
`reddit_subreddit`), targeting it while the resolved field is missing always
makes `validatePlatformRequirements` fail with the requirement message of a
missing-field platform of the list; when no targeted platform's field is
missing it succeeds; and for a non-empty value, supplying the field via the
CLI flag or via the config `platform_defaults` entry yields literally the same
resolved parameter record (hence identical validation behavior), with the
field resolved to that value. -/
theorem platformRequirements_flag_config_equiv
    (ps : List Platform) (params : ReqParams) (v : String)
    (pflag rflag cfgP cfgR : Option String) :
    (∀ p ∈ ps, requiredFieldMissing params p = true →
      ∃ q, q ∈ ps ∧ requiredFieldMissing params q = true ∧
        validatePlatformRequirements ps params = .error (requirementMsg q)) ∧
    ((∀ p ∈ ps, requiredFieldMissing params p = false) →
      validatePlatformRequirements ps params = .ok ()) ∧
    (v.isEmpty = false →
      mkReqParams (some v) pflag rflag none cfgP cfgR =
        mkReqParams none pflag rflag (some v) cfgP cfgR ∧
      (mkReqParams (some v) pflag rflag none cfgP cfgR).facebook_page = some v ∧
      mkReqParams pflag (some v) rflag cfgP none cfgR =
        mkReqParams pflag none rflag cfgP (some v) cfgR ∧
      (mkReqParams pflag (some v) rflag cfgP none cfgR).pinterest_board = some v ∧
      mkReqParams pflag rflag (some v) cfgP cfgR none =
        mkReqParams pflag rflag none cfgP cfgR (some v) ∧
      (mkReqParams pflag rflag (some v) cfgP cfgR none).reddit_subreddit = some v) := by
  refine ⟨fun p hp hm => validateReq_error_of_missing params ps p hp hm,
    validateReq_ok_of_none_missing params ps, fun hv => ?_⟩
  simp [mkReqParams, jsOrStr, hv]

/-- Witness for C4: targeting facebook with no page anywhere fails with the
facebook message; a page supplied via the flag path validates, and the flag
path and the config-default path produce the same resolved record. -/
theorem platformRequirements_flag_config_equiv_witness :
    requiredFieldMissing ⟨none, none, none⟩ .facebook = true ∧
    validatePlatformRequirements [.facebook] ⟨none, none, none⟩ =
      .error facebookReqMsg ∧
    validatePlatformRequirements [.facebook] ⟨some "pg", none, none⟩ = .ok () ∧
    mkReqParams (some "pg") none none none none none =
      mkReqParams none none none (some "pg") none none := by
  obtain ⟨h1, -, -⟩ := platformRequirements_flag_config_equiv [.facebook]
    ⟨none, none, none⟩ "pg" none none none none
  obtain ⟨-, h2, h3⟩ := platformRequirements_flag_config_equiv [.facebook]
    ⟨some "pg", none, none⟩ "pg" none none none none
  refine ⟨by decide, ?_, h2 (by decide), (h3 rfl).1⟩
  obtain ⟨q, hq, -, hval⟩ := h1 .facebook (by decide) (by decide)
  have hqf : q = Platform.facebook := List.mem_singleton.1 hq
  rw [hqf] at hval
  exact hval

theorem validateVideoFile_ok_size {fs : FileSystem} {path : String} {n : Nat}
    (h : validateVideoFile fs path = .ok n) : n = fs.fsize path := by
  unfold validateVideoFile at h
  split at h
  · exact absurd h (by simp)
  · split at h
    · split at h
      · exact (Except.ok.inj h).symm
      · exact absurd h (by simp)
    · exact absurd h (by simp)

/-- C3: whenever the video pipeline succeeds for a local file, the built
request's async field is exactly `resolveVideoAsync` of the measured size and
the caller's flag: with no explicit flag it stays unset for a file at or under
the 50MB threshold and is forced to `true` over the threshold; an explicit
flag (including explicit `false`) is never overridden by the size heuristic. -/
theorem videoPipeline_async_heuristic
    (fs : FileSystem) (parseDate : String → Option Int) (now : Int)
    (tzValid : String → Bool) (envProfile envPlatforms : Option String)
    (cfg : Option Config) (gProfile : Option String) (v : VideoFlags)
    (built : BuiltVideo) (path : String)
    (hfile : truthyOpt v.file = some path)
    (hok : videoPipeline fs parseDate now tzValid envProfile envPlatforms cfg
      gProfile v = .ok built) :
    built.async = resolveVideoAsync (fs.fsize path) v.async ∧
    (v.async = none → fs.fsize path ≤ ASYNC_THRESHOLD → built.async = none) ∧
    (v.async = none → fs.fsize path > ASYNC_THRESHOLD → built.async = some true) ∧
    (∀ b, v.async = some b → built.async = some b) := by
  have hmain : built.async = resolveVideoAsync (fs.fsize path) v.async := by
    unfold videoPipeline at hok
    obtain ⟨-, -, hok⟩ := bind_ok_elim hok
    obtain ⟨title, -, hok⟩ := bind_ok_elim hok
    obtain ⟨profile, -, hok⟩ := bind_ok_elim hok
    obtain ⟨platforms, -, hok⟩ := bind_ok_elim hok
    obtain ⟨-, -, hok⟩ := bind_ok_elim hok
    obtain ⟨fileSize, hfs, hok⟩ := bind_ok_elim hok
    obtain ⟨-, -, hok⟩ := bind_ok_elim hok
    obtain ⟨-, -, hok⟩ := bind_ok_elim hok
    obtain ⟨-, -, hok⟩ := bind_ok_elim hok
    obtain ⟨-, -, hok⟩ := bind_ok_elim hok
    rw [hfile] at hfs
    have hsz := validateVideoFile_ok_size hfs
    have hb := Except.ok.inj hok
    rw [← hb, ← hsz]
  refine ⟨hmain, fun ha hle => ?_, fun ha hgt => ?_, fun b hb => ?_⟩
  · rw [hmain, ha]
    unfold resolveVideoAsync
    rw [if_neg (fun hc => (Nat.not_lt.2 hle) hc.1)]
  · rw [hmain, ha]
    unfold resolveVideoAsync
    rw [if_pos ⟨hgt, rfl⟩]
  · rw [hmain, hb]
    unfold resolveVideoAsync
    rw [if_neg (fun hc => Option.noConfusion hc.2)]

/-- Witness for C3: a 100-byte local `a.mp4` with `--async` unset builds a
request whose async field is unset. -/
theorem videoPipeline_async_heuristic_witness :
    truthyOpt (some "a.mp4") = some "a.mp4" ∧
    videoPipeline ⟨fun _ => true, fun _ => 100⟩ (fun _ => none) 0 (fun _ => true)
      none none none none
      ⟨some "a.mp4", none, some "t", some "x", some "p", none, none, false, none,
        none, none, none⟩ =
      .ok ⟨"p", [.x], "t", none, false, none⟩ ∧
    (⟨"p", [.x], "t", none, false, none⟩ : BuiltVideo).async = none := by
  have hfile : truthyOpt (some "a.mp4") = some "a.mp4" := rfl
  have hok : videoPipeline ⟨fun _ => true, fun _ => 100⟩ (fun _ => none) 0
      (fun _ => true) none none none none
      ⟨some "a.mp4", none, some "t", some "x", some "p", none, none, false, none,
        none, none, none⟩ =
      .ok ⟨"p", [.x], "t", none, false, none⟩ := by rfl
  refine ⟨hfile, hok, ?_⟩
  exact (videoPipeline_async_heuristic _ _ _ _ _ _ _ _ _ _ "a.mp4" hfile hok).2.1
    rfl (by norm_num [ASYNC_THRESHOLD])

/-- C7: in every one of the four post commands, supplying a truthy
`--schedule` together with `--queue` makes the validation pipeline fail (with
a `UserError`) before any request object is built, regardless of every other
parameter. -/
theorem scheduleQueue_always_fails
    (fs : FileSystem) (parseDate : String → Option Int) (now : Int)
    (tzValid : String → Bool) (parseIntJs : String → Option Int)
    (fileRead : String → Except String String) (stdinRead : Except String String)
    (envProfile envPlatforms : Option String) (cfg : Option Config)
    (gProfile : Option String) (tf : TextFlags) (pf : PhotoFlags) (v : VideoFlags)
    (df : DocumentFlags) :
    (jsTruthy tf.schedule = true → tf.queue = true →
      isErr (textPipeline fileRead stdinRead parseDate now tzValid parseIntJs
        envProfile envPlatforms cfg gProfile tf) = true) ∧
    (jsTruthy pf.schedule = true → pf.queue = true →
      isErr (photoPipeline fs parseDate now tzValid envProfile envPlatforms cfg
        gProfile pf) = true) ∧
    (jsTruthy v.schedule = true → v.queue = true →
      isErr (videoPipeline fs parseDate now tzValid envProfile envPlatforms cfg
        gProfile v) = true) ∧
    (jsTruthy df.schedule = true → df.queue = true →
      isErr (documentPipeline fs parseDate now tzValid envProfile cfg gProfile df) =
        true) := by
  refine ⟨fun hs hq => ?_, fun hs hq => ?_, fun hs hq => ?_, fun hs hq => ?_⟩
  · unfold textPipeline
    apply isErr_bind_of; intro text
    apply isErr_bind_of; intro u1
    apply isErr_bind_of; intro profile
    apply isErr_bind_of; intro platforms
    apply isErr_bind_of; intro u2
    apply isErr_bind_of; intro u3
    rw [checkScheduleQueue_err hs hq]
    exact isErr_error_bind _ _
  · unfold photoPipeline
    apply isErr_bind_of; intro u1
    apply isErr_bind_of; intro title
    apply isErr_bind_of; intro files
    apply isErr_bind_of; intro profile
    apply isErr_bind_of; intro platforms
    apply isErr_bind_of; intro u2
    apply isErr_bind_of; intro u3
    rw [checkScheduleQueue_err hs hq]
    exact isErr_error_bind _ _
  · unfold videoPipeline
    apply isErr_bind_of; intro u1
    apply isErr_bind_of; intro title
    apply isErr_bind_of; intro profile
    apply isErr_bind_of; intro platforms
    apply isErr_bind_of; intro u2
    apply isErr_bind_of; intro fileSize
    apply isErr_bind_of; intro u3
    rw [checkScheduleQueue_err hs hq]
    exact isErr_error_bind _ _
  · unfold documentPipeline
    apply isErr_bind_of; intro u1
    apply isErr_bind_of; intro title
    apply isErr_bind_of; intro u2
    apply isErr_bind_of; intro profile
    apply isErr_bind_of; intro u3
    rw [checkScheduleQueue_err hs hq]
    exact isErr_error_bind _ _

/-- Witness for C7: with `--schedule 2025-06-01` and `--queue` set, each of
the four pipelines fails. -/
theorem scheduleQueue_always_fails_witness :
    jsTruthy (some "2025-06-01") = true ∧
    isErr (textPipeline (fun _ => .error "e") (.error "e") (fun _ => none) 0
      (fun _ => true) (fun _ => none) none none none none
      ⟨some "b", none, false, none, none, some "2025-06-01", none, true, false,
        none, none, none, none⟩) = true ∧
    isErr (photoPipeline ⟨fun _ => true, fun _ => 0⟩ (fun _ => none) 0
      (fun _ => true) none none none none
      ⟨some "a.jpg", none, some "t", none, none, some "2025-06-01", none, true,
        false, none, none, none⟩) = true ∧
    isErr (videoPipeline ⟨fun _ => true, fun _ => 0⟩ (fun _ => none) 0
      (fun _ => true) none none none none
      ⟨some "a.mp4", none, some "t", none, none, some "2025-06-01", none, true,
        none, none, none, none⟩) = true ∧
    isErr (documentPipeline ⟨fun _ => true, fun _ => 0⟩ (fun _ => none) 0
      (fun _ => true) none none none
      ⟨some "a.pdf", none, some "t", none, none, none, none, some "2025-06-01",
        none, true, false⟩) = true := by
  obtain ⟨h1, h2, h3, h4⟩ := scheduleQueue_always_fails ⟨fun _ => true, fun _ => 0⟩
    (fun _ => none) 0 (fun _ => true) (fun _ => none) (fun _ => .error "e")
    (.error "e") none none none none
    ⟨some "b", none, false, none, none, some "2025-06-01", none, true, false,
      none, none, none, none⟩
    ⟨some "a.jpg", none, some "t", none, none, some "2025-06-01", none, true,
      false, none, none, none⟩
    ⟨some "a.mp4", none, some "t", none, none, some "2025-06-01", none, true,
      none, none, none, none⟩
    ⟨some "a.pdf", none, some "t", none, none, none, none, some "2025-06-01",
      none, true, false⟩
  exact ⟨rfl, h1 rfl rfl, h2 rfl rfl, h3 rfl rfl, h4 rfl rfl⟩

/-- C8: a document post whose explicit `--platforms` value tokenizes to a list
containing any entry other than `linkedin` fails — the LinkedIn-only check
errors with a message naming every non-linkedin entry, and the whole pipeline
errors before any request is built — while a token list of only `linkedin`
entries, or no explicit `--platforms` at all, never triggers this check. -/
theorem documentPipeline_linkedin_only
    (fs : FileSystem) (parseDate : String → Option Int) (now : Int)
    (tzValid : String → Bool) (envProfile : Option String) (cfg : Option Config)
    (gProfile : Option String) (df : DocumentFlags) (s : String)
    (hflag : df.platforms = some s)
    (hbad : (tokenizeCsv s).filter (fun p => p ≠ "linkedin") ≠ []) :
    checkDocPlatforms (some s) =
      .error ("Document posts are only supported on LinkedIn. Unsupported: " ++
        joinSep ", " ((tokenizeCsv s).filter (fun p => p ≠ "linkedin"))) ∧
    isErr (documentPipeline fs parseDate now tzValid envProfile cfg gProfile df) =
      true ∧
    (∀ s', (tokenizeCsv s').filter (fun p => p ≠ "linkedin") = [] →
      checkDocPlatforms (some s') = .ok ()) ∧
    checkDocPlatforms none = .ok () := by
  have hsne : s.isEmpty = false := by
    cases h : s.isEmpty with
    | false => rfl
    | true =>
      exfalso
      rw [(String.isEmpty_iff s).1 h] at hbad
      exact hbad (by decide)
  have hne : ((tokenizeCsv s).filter (fun p => p ≠ "linkedin")).isEmpty = false := by
    simpa [List.isEmpty_iff] using hbad
  have hcheck : checkDocPlatforms (some s) =
      .error ("Document posts are only supported on LinkedIn. Unsupported: " ++
        joinSep ", " ((tokenizeCsv s).filter (fun p => p ≠ "linkedin"))) := by
    simp only [checkDocPlatforms, truthyOpt, hsne, Bool.false_eq_true, if_false, hne]
  refine ⟨hcheck, ?_, ?_, rfl⟩
  · unfold documentPipeline
    apply isErr_bind_of; intro u1
    apply isErr_bind_of; intro title
    apply isErr_bind_of; intro u2
    apply isErr_bind_of; intro profile
    rw [hflag, hcheck]
    exact isErr_error_bind _ _
  · intro s' h0
    cases hse : s'.isEmpty with
    | true => simp [checkDocPlatforms, truthyOpt, hse]
    | false =>
      simp only [checkDocPlatforms, truthyOpt, hse, Bool.false_eq_true, if_false, h0,
        List.isEmpty_nil, if_true]

/-- Witness for C8: `--platforms x,linkedin` on a document post fails naming
`x`, and the full pipeline errors. -/
theorem documentPipeline_linkedin_only_witness :
    ((⟨some "a.pdf", none, some "t", some "x,linkedin", some "p", none, none, none,
        none, false, false⟩ : DocumentFlags).platforms = some "x,linkedin") ∧
    ((tokenizeCsv "x,linkedin").filter (fun p => p ≠ "linkedin") ≠ []) ∧
    checkDocPlatforms (some "x,linkedin") =
      .error "Document posts are only supported on LinkedIn. Unsupported: x" ∧
    isErr (documentPipeline ⟨fun _ => true, fun _ => 0⟩ (fun _ => none) 0
      (fun _ => true) none none none
      ⟨some "a.pdf", none, some "t", some "x,linkedin", some "p", none, none, none,
        none, false, false⟩) = true := by
  obtain ⟨h1, h2, -, -⟩ := documentPipeline_linkedin_only ⟨fun _ => true, fun _ => 0⟩
    (fun _ => none) 0 (fun _ => true) none none none
    ⟨some "a.pdf", none, some "t", some "x,linkedin", some "p", none, none, none,
      none, false, false⟩
    "x,linkedin" rfl (by decide)
  refine ⟨rfl, by decide, ?_, h2⟩
  rw [h1]
  rfl
